import Mathlib

/-!
Verification development for a line-oriented bank-account server.

The embedding below translates the repository's Python sources:
  * `bank.py`          — the `Bank` ledger class (accounts, allocation/recycling,
                         deposit/withdraw, JSON snapshot save/load);
  * `src/command_handler.py` — the protocol codec, the command handlers
                         (HELP/BC/AC/AD/AW/AB/AR/BA/BN), the proxy hook and the
                         dispatcher `handle_bank_command` / `process_bank_command`.

Modelling conventions:
  * Python `dict` (insertion-ordered, unique keys) becomes an association list
    `List (Int × Int)`; `d[k] = v` updates the first binding in place or appends,
    `del d[k]` removes the first binding, mirroring CPython semantics.
  * Python exceptions become `Except`: `Bank` methods return
    `Except String α` carrying the exception message; the handler layer uses
    `PyErr` to distinguish `CommandError` (caught by the dispatcher) from other
    exceptions (which escape it).
  * Machine-independent Python `int` is `Int` (arbitrary precision, as in CPython).
  * `threading.Lock` usage is dropped: each ledger method is modelled as the
    atomic state transformation it performs under the lock.
  * `Logger.log` calls are dropped: logging has no effect on ledger state or on
    any response value.
-/

/-- Python `k in d` for an insertion-ordered dict rendered as an assoc list. -/
def dictMem (d : List (Int × Int)) (k : Int) : Bool :=
  d.any (fun p => p.1 = k)

/-- Python `d[k]` lookup (first binding wins; keys are unique in actual dicts). -/
def dictGet? : List (Int × Int) → Int → Option Int
  | [], _ => none
  | (k', v') :: d, k => if k' = k then some v' else dictGet? d k

/-- Python `d[k] = v`: update the first binding in place, else append. -/
def dictSet : List (Int × Int) → Int → Int → List (Int × Int)
  | [], k, v => [(k, v)]
  | (k', v') :: d, k, v => if k' = k then (k, v) :: d else (k', v') :: dictSet d k v

/-- Python `del d[k]`: remove the first binding for `k`. -/
def dictDel : List (Int × Int) → Int → List (Int × Int)
  | [], _ => []
  | (k', v') :: d, k => if k' = k then d else (k', v') :: dictDel d k

/-- Python `list.sort()` on a list of ints: ascending stable sort. -/
def pySort (l : List Int) : List Int :=
  List.insertionSort (· ≤ ·) l

/-- Ledger state of one node: the mutable attributes of the Python `Bank` class
(`bank.py`, `__init__`). -/
structure Bank where
  bank_code : String
  accounts : List (Int × Int)
  next_account_number : Int
  free_accounts : List Int
deriving DecidableEq, Repr

/-- `Bank.__init__`: empty ledger, allocation starts at 10000. -/
def Bank.init (bank_code : String) : Bank :=
  { bank_code := bank_code
    accounts := []
    next_account_number := 10000
    free_accounts := [] }

/-- `Bank.create_account` (`bank.py` lines 26-46): recycle the head of
`free_accounts` (`pop(0)`) if any; otherwise issue `next_account_number` unless
it exceeds 99999. The new account is stored with balance 0. -/
def Bank.create_account (b : Bank) : Except String (Int × Bank) :=
  match b.free_accounts with
  | account_number :: rest =>
      .ok (account_number,
        { b with free_accounts := rest
                 accounts := dictSet b.accounts account_number 0 })
  | [] =>
      if b.next_account_number > 99999 then
        .error "OUR BANK DOES NOT ALLOW NEW ACCOUNT CREATION."
      else
        .ok (b.next_account_number,
          { b with next_account_number := b.next_account_number + 1
                   accounts := dictSet b.accounts b.next_account_number 0 })

/-- `Bank.deposit` (`bank.py` lines 48-62). -/
def Bank.deposit (b : Bank) (account_number amount : Int) : Except String Bank :=
  match dictGet? b.accounts account_number with
  | none => .error "ACCOUNT NUMBER AND AMOUNT ARE NOT IN THE CORRECT FORMAT."
  | some bal =>
      .ok { b with accounts := dictSet b.accounts account_number (bal + amount) }

/-- `Bank.withdraw` (`bank.py` lines 64-80). -/
def Bank.withdraw (b : Bank) (account_number amount : Int) : Except String Bank :=
  match dictGet? b.accounts account_number with
  | none => .error "ACCOUNT NUMBER AND AMOUNT ARE NOT IN THE CORRECT FORMAT."
  | some bal =>
      if bal < amount then
        .error "INSUFFICIENT FUNDS"
      else
        .ok { b with accounts := dictSet b.accounts account_number (bal - amount) }

/-- `Bank.get_balance` (`bank.py` lines 82-98). -/
def Bank.get_balance (b : Bank) (account_number : Int) : Except String Int :=
  match dictGet? b.accounts account_number with
  | none => .error "THE ACCOUNT NUMBER FORMAT IS NOT CORRECT."
  | some bal => .ok bal

/-- `Bank.remove_account` (`bank.py` lines 100-118): delete the entry, append the
number to `free_accounts` and re-sort the list ascending. -/
def Bank.remove_account (b : Bank) (account_number : Int) : Except String Bank :=
  match dictGet? b.accounts account_number with
  | none => .error "THE ACCOUNT NUMBER FORMAT IS NOT CORRECT."
  | some bal =>
      if bal ≠ 0 then
        .error "CANNOT DELETE AN ACCOUNT THAT HAS FUNDS."
      else
        .ok { b with accounts := dictDel b.accounts account_number
                     free_accounts := pySort (b.free_accounts ++ [account_number]) }

/-- `Bank.get_total_amount` (`bank.py` lines 120-128): sum of all balances. -/
def Bank.get_total_amount (b : Bank) : Int :=
  (b.accounts.map Prod.snd).sum

/-- `Bank.get_client_count` (`bank.py` lines 130-138): number of accounts. -/
def Bank.get_client_count (b : Bank) : Nat :=
  b.accounts.length

-- Basic dictionary lemmas.

theorem dictGet?_dictSet_self (d : List (Int × Int)) (k v : Int) :
    dictGet? (dictSet d k v) k = some v := by
  induction d with
  | nil => simp [dictSet, dictGet?]
  | cons p d ih =>
      obtain ⟨a, w⟩ := p
      by_cases h : a = k
      · subst h
        simp [dictSet, dictGet?]
      · simp [dictSet, dictGet?, h, ih]

theorem dictGet?_dictSet_ne (d : List (Int × Int)) (k v m : Int) (hm : m ≠ k) :
    dictGet? (dictSet d k v) m = dictGet? d m := by
  have hk : k ≠ m := Ne.symm hm
  induction d with
  | nil => simp [dictSet, dictGet?, hk]
  | cons p d ih =>
      obtain ⟨a, w⟩ := p
      by_cases h : a = k
      · subst h
        simp [dictSet, dictGet?, hk]
      · simp [dictSet, dictGet?, h, ih]

theorem dictGet?_eq_none (d : List (Int × Int)) (k : Int)
    (h : k ∉ d.map Prod.fst) : dictGet? d k = none := by
  induction d with
  | nil => rfl
  | cons p d ih =>
      obtain ⟨a, w⟩ := p
      have h1 : ¬ a = k := fun hc => h (by simp [hc])
      have h2 : k ∉ d.map Prod.fst := fun hc => h (by simp [hc])
      simp [dictGet?, h1, ih h2]

theorem dictGet?_dictDel_self (d : List (Int × Int)) (k : Int)
    (hd : (d.map Prod.fst).Nodup) :
    dictGet? (dictDel d k) k = none := by
  induction d with
  | nil => rfl
  | cons p d ih =>
      obtain ⟨a, w⟩ := p
      simp only [List.map_cons, List.nodup_cons] at hd
      by_cases h : a = k
      · subst h
        simpa [dictDel] using dictGet?_eq_none d a hd.1
      · simp [dictDel, dictGet?, h, ih hd.2]

theorem dictGet?_dictDel_ne (d : List (Int × Int)) (k m : Int) (hm : m ≠ k) :
    dictGet? (dictDel d k) m = dictGet? d m := by
  induction d with
  | nil => rfl
  | cons p d ih =>
      obtain ⟨a, w⟩ := p
      by_cases h : a = k
      · subst h
        simp [dictDel, dictGet?, Ne.symm hm]
      · simp [dictDel, dictGet?, h, ih]

theorem dictGet?_mem (d : List (Int × Int)) (k bal : Int)
    (h : dictGet? d k = some bal) : (k, bal) ∈ d := by
  induction d with
  | nil => simp [dictGet?] at h
  | cons p d ih =>
      obtain ⟨a, w⟩ := p
      by_cases hp : a = k
      · subst hp
        simp [dictGet?] at h
        subst h
        exact List.mem_cons_self _ _
      · simp only [dictGet?, if_neg hp] at h
        exact List.mem_cons_of_mem _ (ih h)

theorem mem_dictSet (d : List (Int × Int)) (k v : Int) (p : Int × Int)
    (h : p ∈ dictSet d k v) : p ∈ d ∨ p = (k, v) := by
  induction d with
  | nil =>
      simp only [dictSet, List.mem_singleton] at h
      right; exact h
  | cons q d ih =>
      obtain ⟨a, w⟩ := q
      by_cases hq : a = k
      · subst hq
        simp [dictSet] at h
        rcases h with h | h
        · right; exact h
        · left; exact List.mem_cons_of_mem _ h
      · simp only [dictSet, if_neg hq, List.mem_cons] at h
        rcases h with h | h
        · subst h; left; exact List.mem_cons_self _ _
        · rcases ih h with h' | h'
          · left; exact List.mem_cons_of_mem _ h'
          · right; exact h'

theorem mem_dictDel (d : List (Int × Int)) (k : Int) (p : Int × Int)
    (h : p ∈ dictDel d k) : p ∈ d := by
  induction d with
  | nil => simp [dictDel] at h
  | cons q d ih =>
      obtain ⟨a, w⟩ := q
      by_cases hq : a = k
      · subst hq
        simp [dictDel] at h
        exact List.mem_cons_of_mem _ h
      · simp only [dictDel, if_neg hq, List.mem_cons] at h
        rcases h with h | h
        · subst h; exact List.mem_cons_self _ _
        · exact List.mem_cons_of_mem _ (ih h)

theorem sum_dictSet (d : List (Int × Int)) (k v bal : Int)
    (h : dictGet? d k = some bal) :
    ((dictSet d k v).map Prod.snd).sum = (d.map Prod.snd).sum - bal + v := by
  induction d with
  | nil => simp [dictGet?] at h
  | cons p d ih =>
      obtain ⟨a, w⟩ := p
      by_cases hp : a = k
      · subst hp
        simp [dictGet?] at h
        subst h
        simp [dictSet]
        ring
      · simp only [dictGet?, if_neg hp] at h
        simp only [dictSet, if_neg hp, List.map_cons, List.sum_cons, ih h]
        ring

theorem length_dictSet_of_mem (d : List (Int × Int)) (k v bal : Int)
    (h : dictGet? d k = some bal) :
    (dictSet d k v).length = d.length := by
  induction d with
  | nil => simp [dictGet?] at h
  | cons p d ih =>
      obtain ⟨a, w⟩ := p
      by_cases hp : a = k
      · subst hp
        simp [dictSet]
      · simp only [dictGet?, if_neg hp] at h
        simp [dictSet, hp, ih h]

-- Python `str`/`int` conversions, used by `json.dump` key stringification,
-- the `int(...)` calls in `load_data` and the handlers, and response formatting.

/-- The decimal digit character for `d` (meaningful for `d < 10`). -/
def digitChar (d : Nat) : Char :=
  Char.ofNat (48 + d)

/-- Decimal value of a digit character, `none` on a non-digit
(Python `int()` raises `ValueError` there). -/
def digitVal (c : Char) : Option Nat :=
  if c.isDigit then some (c.toNat - 48) else none

/-- Big-endian decimal digits of `n`; fuel-based so that it is structural
(`fuel = n + 1` always suffices since `n / 10 < n`). -/
def natDigitsAux : Nat → Nat → List Char
  | 0, _ => []
  | fuel + 1, n =>
      if n < 10 then [digitChar n]
      else natDigitsAux fuel (n / 10) ++ [digitChar (n % 10)]

/-- Decimal rendering of a natural number, as Python `str` produces it. -/
def natDigits (n : Nat) : List Char :=
  natDigitsAux (n + 1) n

/-- Left-to-right decimal accumulation, as Python `int()` parses digits. -/
def parseNatAux : List Char → Nat → Option Nat
  | [], acc => some acc
  | c :: cs, acc =>
      match digitVal c with
      | none => none
      | some d => parseNatAux cs (10 * acc + d)

/-- `pyInt` on the underlying character list. -/
def pyIntList : List Char → Option Int
  | [] => none
  | c :: cs =>
      if c = '-' then
        if cs = [] then none
        else
          match parseNatAux cs 0 with
          | none => none
          | some n => some (-(n : Int))
      else if c = '+' then
        if cs = [] then none
        else
          match parseNatAux cs 0 with
          | none => none
          | some n => some ((n : Int))
      else
        match parseNatAux (c :: cs) 0 with
        | none => none
        | some n => some ((n : Int))

/-- Python `int(s)`: optional single sign followed by at least one decimal
digit. (The full CPython grammar also strips surrounding whitespace and allows
`_` separators; those inputs never occur in this development and are modelled
as failures.) -/
def pyInt (s : String) : Option Int :=
  pyIntList s.data

/-- Python `str(k)` for an integer. -/
def pyStr (k : Int) : String :=
  if k < 0 then String.mk ('-' :: natDigits k.natAbs)
  else String.mk (natDigits k.toNat)

theorem digitVal_digitChar (d : Nat) (hd : d < 10) :
    digitVal (digitChar d) = some d := by
  interval_cases d <;> decide

theorem digitChar_ne_minus (d : Nat) (hd : d < 10) : digitChar d ≠ '-' := by
  interval_cases d <;> decide

theorem digitChar_ne_plus (d : Nat) (hd : d < 10) : digitChar d ≠ '+' := by
  interval_cases d <;> decide

theorem parseNatAux_append (xs ys : List Char) (acc : Nat) :
    parseNatAux (xs ++ ys) acc =
      match parseNatAux xs acc with
      | none => none
      | some a => parseNatAux ys a := by
  induction xs generalizing acc with
  | nil => simp [parseNatAux]
  | cons c cs ih =>
      cases hc : digitVal c with
      | none => simp [parseNatAux, hc]
      | some d => simp [parseNatAux, hc, ih]

theorem natDigitsAux_ne_nil (fuel n : Nat) (h : n < fuel) :
    natDigitsAux fuel n ≠ [] := by
  cases fuel with
  | zero => omega
  | succ fuel =>
      by_cases h10 : n < 10
      · simp [natDigitsAux, h10]
      · simp [natDigitsAux, h10]

theorem parseNatAux_natDigitsAux (fuel : Nat) :
    ∀ n acc, n < fuel →
      parseNatAux (natDigitsAux fuel n) acc =
        some (acc * 10 ^ (natDigitsAux fuel n).length + n) := by
  induction fuel with
  | zero => intro n acc h; omega
  | succ fuel ih =>
      intro n acc h
      by_cases h10 : n < 10
      · simp [natDigitsAux, h10, parseNatAux, digitVal_digitChar n h10]
        ring
      · have hn : 0 < n := by omega
        have hdiv : n / 10 < n := Nat.div_lt_self hn (by omega)
        have hfuel : n / 10 < fuel := by omega
        simp only [natDigitsAux, if_neg h10]
        rw [parseNatAux_append]
        rw [ih (n / 10) acc hfuel]
        simp only [parseNatAux, digitVal_digitChar (n % 10) (Nat.mod_lt n (by omega))]
        have hlen : (natDigitsAux fuel (n / 10) ++ [digitChar (n % 10)]).length =
            (natDigitsAux fuel (n / 10)).length + 1 := by simp
        rw [hlen]
        congr 1
        have : 10 * (acc * 10 ^ (natDigitsAux fuel (n / 10)).length + n / 10) + n % 10 =
            acc * 10 ^ ((natDigitsAux fuel (n / 10)).length + 1) +
              (10 * (n / 10) + n % 10) := by ring
        rw [this, Nat.div_add_mod]

theorem parseNatAux_natDigits (n : Nat) :
    parseNatAux (natDigits n) 0 = some n := by
  have := parseNatAux_natDigitsAux (n + 1) n 0 (by omega)
  simpa [natDigits] using this

theorem natDigits_head_isDigit (n : Nat) :
    ∃ c cs, natDigits n = c :: cs ∧ c.isDigit = true := by
  unfold natDigits
  cases hn : natDigitsAux (n + 1) n with
  | nil => exact absurd hn (natDigitsAux_ne_nil (n + 1) n (by omega))
  | cons c cs =>
      refine ⟨c, cs, rfl, ?_⟩
      -- The head of `natDigitsAux` output is always a digit character.
      have : ∀ fuel m, m < fuel → ∀ c' cs', natDigitsAux fuel m = c' :: cs' →
          c'.isDigit = true := by
        intro fuel
        induction fuel with
        | zero => intro m hm; omega
        | succ fuel ih =>
            intro m hm c' cs' heq
            by_cases h10 : m < 10
            · simp only [natDigitsAux, if_pos h10] at heq
              cases heq
              interval_cases m <;> decide
            · simp only [natDigitsAux, if_neg h10] at heq
              have hm0 : 0 < m := by omega
              have hdiv : m / 10 < m := Nat.div_lt_self hm0 (by omega)
              cases htl : natDigitsAux fuel (m / 10) with
              | nil => exact absurd htl (natDigitsAux_ne_nil fuel (m / 10) (by omega))
              | cons x xs =>
                  rw [htl] at heq
                  simp only [List.cons_append, List.cons.injEq] at heq
                  exact heq.1 ▸ ih (m / 10) (by omega) x xs htl
      exact this (n + 1) n (by omega) c cs hn

theorem isDigit_ne_minus (c : Char) (h : c.isDigit = true) : c ≠ '-' := by
  intro hc; subst hc; simp [Char.isDigit] at h

theorem isDigit_ne_plus (c : Char) (h : c.isDigit = true) : c ≠ '+' := by
  intro hc; subst hc; simp [Char.isDigit] at h

/-- Python round trip `int(str(k)) = k`, the key fact behind snapshot loading
recovering the integer account numbers that `json.dump` stringified. -/
theorem pyInt_pyStr (k : Int) : pyInt (pyStr k) = some k := by
  by_cases hk : k < 0
  · obtain ⟨c, cs, hcs, hdig⟩ := natDigits_head_isDigit k.natAbs
    simp only [pyStr, if_pos hk]
    show pyIntList ('-' :: natDigits k.natAbs) = some k
    have hne : natDigits k.natAbs ≠ [] := by rw [hcs]; simp
    have htriv : ('-' : Char) = '-' := rfl
    simp only [pyIntList, if_pos htriv, if_neg hne, parseNatAux_natDigits]
    have hval : ((k.natAbs : Nat) : Int) = -k := by omega
    rw [hval]
    simp
  · obtain ⟨c, cs, hcs, hdig⟩ := natDigits_head_isDigit k.toNat
    simp only [pyStr, if_neg hk]
    show pyIntList (natDigits k.toNat) = some k
    rw [hcs]
    have h1 : ¬ c = '-' := isDigit_ne_minus c hdig
    have h2 : ¬ c = '+' := isDigit_ne_plus c hdig
    simp only [pyIntList, if_neg h1, if_neg h2, ← hcs, parseNatAux_natDigits]
    simp [Int.toNat_of_nonneg (by omega : (0 : Int) ≤ k)]

-- Persisted snapshot (`bank.py` `save_data` / `load_data`).

/-- Parsed JSON values, as returned by `json.load`. (JSON floats are not
modelled: no snapshot produced by this program contains one.) -/
inductive JVal
  | jnull
  | jbool (b : Bool)
  | jint (n : Int)
  | jstr (s : String)
  | jarr (xs : List JVal)
  | jobj (fields : List (String × JVal))

/-- Python `dict.get(key, default)` on a parsed JSON object. -/
def jGet (fields : List (String × JVal)) (key : String) (dflt : JVal) : JVal :=
  match fields with
  | [] => dflt
  | (k, v) :: rest => if k = key then v else jGet rest key dflt

/-- Python `int(x)` applied to a parsed JSON value, as in `load_data`'s
comprehensions: ints pass through, strings are parsed, bools coerce to 0/1,
anything else raises (`none`). -/
def pyIntOfJVal : JVal → Option Int
  | .jint n => some n
  | .jstr s => pyInt s
  | .jbool b => some (if b then 1 else 0)
  | _ => none

/-- `int()` over each element of a Python list (`[int(x) for x in ...]`):
fails if any element does. -/
def mapPyInt : List JVal → Option (List Int)
  | [] => some []
  | x :: xs =>
      match pyIntOfJVal x with
      | none => none
      | some n =>
          match mapPyInt xs with
          | none => none
          | some ns => some (n :: ns)

/-- `{int(k): v for k, v in ....items()}`: converts every key with `int()`;
every value must be an integer for the typed ledger to represent it (Python
would store an arbitrary JSON value as the balance; non-integer balances are
modelled as a load failure, and no snapshot this program writes contains one). -/
def parseAccounts : List (String × JVal) → Option (List (Int × Int))
  | [] => some []
  | (k, v) :: rest =>
      match pyInt k with
      | none => none
      | some ki =>
          match v with
          | .jint vi =>
              (match parseAccounts rest with
               | none => none
               | some acc => some ((ki, vi) :: acc))
          | _ => none

/-- `Bank.save_data` (`bank.py` lines 140-158), up to file mechanics: the JSON
value written to disk. `json.dump` renders the int dict keys as strings. -/
def Bank.save_data (b : Bank) : JVal :=
  .jobj [("accounts", .jobj (b.accounts.map (fun p => (pyStr p.1, .jint p.2)))),
         ("free_accounts", .jarr (b.free_accounts.map .jint)),
         ("next_account_number", .jint b.next_account_number)]

/-- What `load_data` finds on disk. -/
inductive SnapshotFile
  | missing
  | unparsable
  | parsed (j : JVal)

/-- `Bank.load_data` (`bank.py` lines 160-176). A missing file is skipped; a
file that fails to parse is swallowed by the bare `except`. The three
assignments run in order inside one `try`: an exception raised while computing
a later field leaves the earlier assignments in place (Python rolls nothing
back), which is exactly what the partial-application theorems exercise.
Non-dict `.get`/`.items()` targets raise `AttributeError` (caught likewise);
iterating a non-list `free_accounts` value and a non-integer
`next_account_number` are modelled as raising at that same point. -/
def Bank.load_data (b : Bank) (f : SnapshotFile) : Bank :=
  match f with
  | .missing => b
  | .unparsable => b
  | .parsed data =>
      match data with
      | .jobj fields =>
          -- self.accounts = {int(k): v for k, v in data.get("accounts", {}).items()}
          match jGet fields "accounts" (.jobj []) with
          | .jobj accFields =>
              match parseAccounts accFields with
              | none => b
              | some newAccounts =>
                  let b1 := { b with accounts := newAccounts }
                  -- self.free_accounts = sorted([int(x) for x in data.get("free_accounts", [])])
                  match jGet fields "free_accounts" (.jarr []) with
                  | .jarr freeVals =>
                      match mapPyInt freeVals with
                      | none => b1
                      | some frees =>
                          let b2 := { b1 with free_accounts := pySort frees }
                          -- self.next_account_number = data.get("next_account_number", 10000)
                          match jGet fields "next_account_number" (.jint 10000) with
                          | .jint nxt => { b2 with next_account_number := nxt }
                          | _ => b2
                  | _ => b1
          | _ => b
      | _ => b

-- Protocol codec and command handlers (`src/command_handler.py`).

/-- Split a character list at every character satisfying `p`, keeping empty
segments (the behavior of Python `str.split(sep)` for an explicit separator). -/
def splitCharsBy (p : Char → Bool) : List Char → List (List Char)
  | [] => [[]]
  | c :: cs =>
      match splitCharsBy p cs with
      | r :: rs => if p c then [] :: r :: rs else (c :: r) :: rs
      | [] => if p c then [[], []] else [[c]]

/-- Python `s.split()` (no argument): split on whitespace runs, dropping empty
segments. The session layer feeds the dispatcher whole stripped lines. -/
def pySplitWs (s : String) : List String :=
  ((splitCharsBy Char.isWhitespace s.data).map String.mk).filter (fun t => t ≠ "")

/-- Python `s.split("/")`. -/
def pySplitSlash (s : String) : List String :=
  (splitCharsBy (fun c => c = '/') s.data).map String.mk

/-- Python `"/" in s`. -/
def containsSlash (s : String) : Bool :=
  s.data.any (fun c => c = '/')

/-- Python `" ".join(args)`. -/
def pyJoin (args : List String) : String :=
  String.mk (List.intercalate [' '] (args.map String.data))

/-- `validate_account_number` (`src/command_handler.py` lines 37-47). -/
def validate_account_number (account_num : Int) : Bool :=
  10000 ≤ account_num ∧ account_num ≤ 99999

/-- `validate_number` (`src/command_handler.py` lines 50-60). -/
def validate_number (number : Int) : Bool :=
  0 ≤ number ∧ number ≤ 9223372036854775807

/-- Python exceptions at the dispatcher boundary: `CommandError` is caught by
`handle_bank_command`; a bare `Exception` (raised by `Bank` methods) and
`ValueError` (raised by tuple unpacking) are not. -/
inductive PyErr
  | commandError (msg : String)
  | exception (msg : String)
  | valueError (msg : String)
deriving DecidableEq, Repr

/-- The behavior of the remote node as seen through `proxy_command`
(`src/command_handler.py` lines 64-90): given the remote bank code (used as the
host to connect to) and the forwarded command line, the trimmed response —
either the remote reply or the synthetic `ER PROXY ERROR: ...` produced on any
connection failure. The network itself is outside the embedding, so the
handlers take this function as a parameter. -/
def ProxyFn := String → String → String

/-- The nine registered commands (`COMMANDS` dict,
`src/command_handler.py` lines 386-396). -/
inductive Command
  | HELP | BC | AC | AD | AW | AB | AR | BA | BN
deriving DecidableEq, Repr

/-- `COMMANDS.get(cmd_key)`. -/
def COMMANDS : String → Option Command
  | "HELP" => some .HELP
  | "BC" => some .BC
  | "AC" => some .AC
  | "AD" => some .AD
  | "AW" => some .AW
  | "AB" => some .AB
  | "AR" => some .AR
  | "BA" => some .BA
  | "BN" => some .BN
  | _ => none

/-- `HELPCommand.execute` help text (lines 133-143). -/
def helpMessage : String :=
  "Available Commands:\r\nBC - returns bank code\r\nAC - creates an account and returns its number\r\nAD - adds money to account\r\nAW - withdraws money from account\r\nAB - returns account balance\r\nAR - deletes account if empty\r\nBA - returns bank value\r\nBN - returns number of clients in bank\r\n"

/-- `ADCommand.execute` (`src/command_handler.py` lines 189-227). The proxy
decision (`account_bank != bank.bank_code`) happens right after the
split/unpack, before any number or amount validation. `bank.deposit` is called
bare: the `Exception` it raises for an unknown account is NOT converted to
`CommandError` and escapes the handler. -/
def ADCommand.execute (args : List String) (bank : Bank) (p : ProxyFn) :
    Except PyErr (String × Bank) :=
  match args with
  | [_, account_info, amount_str] =>
      if containsSlash account_info = false then
        .error (.commandError "ACCOUNT NUMBER AND AMOUNT ARE NOT IN THE CORRECT FORMAT.")
      else
        match pySplitSlash account_info with
        | [account_num_str, account_bank] =>
            if account_bank ≠ bank.bank_code then
              .ok (p account_bank (pyJoin args), bank)
            else
              match pyInt account_num_str with
              | none => .error (.commandError "ACCOUNT NUMBER AND AMOUNT ARE NOT IN THE CORRECT FORMAT.")
              | some account_number =>
                  if validate_account_number account_number = false then
                    .error (.commandError "ACCOUNT NUMBER AND AMOUNT ARE NOT IN THE CORRECT FORMAT.")
                  else
                    match pyInt amount_str with
                    | none => .error (.commandError "ACCOUNT NUMBER AND AMOUNT ARE NOT IN THE CORRECT FORMAT.")
                    | some amount =>
                        if validate_number amount = false then
                          .error (.commandError "ACCOUNT NUMBER AND AMOUNT ARE NOT IN THE CORRECT FORMAT.")
                        else
                          match bank.deposit account_number amount with
                          | .error msg => .error (.exception msg)
                          | .ok b2 => .ok ("AD", b2)
        | _ => .error (.valueError "too many values to unpack (expected 2)")
  | _ => .error (.commandError "ACCOUNT NUMBER AND AMOUNT ARE NOT IN THE CORRECT FORMAT.")

/-- `AWCommand.execute` (lines 230-274). Identical shape to AD, but
`bank.withdraw` is wrapped: `INSUFFICIENT FUNDS` maps to a `CommandError` of
its own, every other exception to the generic format `CommandError`. -/
def AWCommand.execute (args : List String) (bank : Bank) (p : ProxyFn) :
    Except PyErr (String × Bank) :=
  match args with
  | [_, account_info, amount_str] =>
      if containsSlash account_info = false then
        .error (.commandError "ACCOUNT NUMBER AND AMOUNT ARE NOT IN THE CORRECT FORMAT.")
      else
        match pySplitSlash account_info with
        | [account_num_str, account_bank] =>
            if account_bank ≠ bank.bank_code then
              .ok (p account_bank (pyJoin args), bank)
            else
              match pyInt account_num_str with
              | none => .error (.commandError "ACCOUNT NUMBER AND AMOUNT ARE NOT IN THE CORRECT FORMAT.")
              | some account_number =>
                  if validate_account_number account_number = false then
                    .error (.commandError "ACCOUNT NUMBER AND AMOUNT ARE NOT IN THE CORRECT FORMAT.")
                  else
                    match pyInt amount_str with
                    | none => .error (.commandError "ACCOUNT NUMBER AND AMOUNT ARE NOT IN THE CORRECT FORMAT.")
                    | some amount =>
                        if validate_number amount = false then
                          .error (.commandError "ACCOUNT NUMBER AND AMOUNT ARE NOT IN THE CORRECT FORMAT.")
                        else
                          match bank.withdraw account_number amount with
                          | .error msg =>
                              if msg = "INSUFFICIENT FUNDS" then
                                .error (.commandError "INSUFFICIENT FUNDS.")
                              else
                                .error (.commandError "ACCOUNT NUMBER AND AMOUNT ARE NOT IN THE CORRECT FORMAT.")
                          | .ok b2 => .ok ("AW", b2)
        | _ => .error (.valueError "too many values to unpack (expected 2)")
  | _ => .error (.commandError "ACCOUNT NUMBER AND AMOUNT ARE NOT IN THE CORRECT FORMAT.")

/-- `ABCommand.execute` (lines 277-307). `bank.get_balance` is called bare, so
its unknown-account `Exception` escapes the handler uncaught. -/
def ABCommand.execute (args : List String) (bank : Bank) (p : ProxyFn) :
    Except PyErr (String × Bank) :=
  match args with
  | [_, account_info] =>
      if containsSlash account_info = false then
        .error (.commandError "THE ACCOUNT NUMBER FORMAT IS NOT CORRECT.")
      else
        match pySplitSlash account_info with
        | [account_num_str, account_bank] =>
            if account_bank ≠ bank.bank_code then
              .ok (p account_bank (pyJoin args), bank)
            else
              match pyInt account_num_str with
              | none => .error (.commandError "THE ACCOUNT NUMBER FORMAT IS NOT CORRECT.")
              | some account_number =>
                  if validate_account_number account_number = false then
                    .error (.commandError "THE ACCOUNT NUMBER FORMAT IS NOT CORRECT.")
                  else
                    match bank.get_balance account_number with
                    | .error msg => .error (.exception msg)
                    | .ok balance => .ok ("AB " ++ pyStr balance, bank)
        | _ => .error (.valueError "too many values to unpack (expected 2)")
  | _ => .error (.commandError "THE ACCOUNT NUMBER FORMAT IS NOT CORRECT.")

/-- `ARCommand.execute` (lines 310-342): deletion is local-only — a bank code
that is not the local one raises `CommandError` instead of proxying. -/
def ARCommand.execute (args : List String) (bank : Bank) (p : ProxyFn) :
    Except PyErr (String × Bank) :=
  match args with
  | [_, account_info] =>
      if containsSlash account_info = false then
        .error (.commandError "THE ACCOUNT NUMBER FORMAT IS NOT CORRECT.")
      else
        match pySplitSlash account_info with
        | [account_num_str, account_bank] =>
            if account_bank ≠ bank.bank_code then
              .error (.commandError "THE ACCOUNT NUMBER FORMAT IS NOT CORRECT.")
            else
              match pyInt account_num_str with
              | none => .error (.commandError "THE ACCOUNT NUMBER FORMAT IS NOT CORRECT.")
              | some account_number =>
                  if validate_account_number account_number = false then
                    .error (.commandError "THE ACCOUNT NUMBER FORMAT IS NOT CORRECT.")
                  else
                    match bank.remove_account account_number with
                    | .error _ => .error (.commandError "CANNOT DELETE AN ACCOUNT THAT HAS FUNDS.")
                    | .ok b2 => .ok ("AR", b2)
        | _ => .error (.valueError "too many values to unpack (expected 2)")
  | _ => .error (.commandError "THE ACCOUNT NUMBER FORMAT IS NOT CORRECT.")

/-- Dispatch one parsed command (`cmd_instance.execute(parts, ...)`). -/
def Command.run (c : Command) (args : List String) (bank : Bank) (p : ProxyFn) :
    Except PyErr (String × Bank) :=
  match c with
  | .HELP => .ok (helpMessage, bank)
  | .BC =>
      if args.length ≠ 1 then .error (.commandError "INVALID NUMBER OF ARGUMENTS FOR BC")
      else .ok ("BC " ++ bank.bank_code, bank)
  | .AC =>
      if args.length ≠ 1 then .error (.commandError "INVALID NUMBER OF ARGUMENTS FOR AC")
      else
        match bank.create_account with
        | .error _ => .error (.commandError "OUR BANK DOES NOT ALLOW NEW ACCOUNT CREATION.")
        | .ok (account_number, b2) =>
            .ok ("AC " ++ pyStr account_number ++ "/" ++ bank.bank_code, b2)
  | .AD => ADCommand.execute args bank p
  | .AW => AWCommand.execute args bank p
  | .AB => ABCommand.execute args bank p
  | .AR => ARCommand.execute args bank p
  | .BA =>
      if args.length ≠ 1 then .error (.commandError "INVALID NUMBER OF ARGUMENTS FOR BA")
      else .ok ("BA " ++ pyStr bank.get_total_amount, bank)
  | .BN =>
      if args.length ≠ 1 then .error (.commandError "INVALID NUMBER OF ARGUMENTS FOR BN")
      else .ok ("BN " ++ pyStr (Int.ofNat bank.get_client_count), bank)

/-- `handle_bank_command` (lines 399-428): tokenize, look the keyword up,
execute; only `CommandError` is converted to a one-line `ER <msg>` response —
any other exception escapes as the `.error` of the result. -/
def handle_bank_command (command : String) (bank : Bank) (p : ProxyFn) :
    Except PyErr (String × Bank) :=
  match pySplitWs command with
  | [] => .ok ("ER INVALID COMMAND", bank)
  | cmd_key :: rest =>
      match COMMANDS cmd_key with
      | none => .ok ("ER UNKNOWN COMMAND", bank)
      | some cmd =>
          match cmd.run (cmd_key :: rest) bank p with
          | .ok r => .ok r
          | .error (.commandError msg) => .ok ("ER " ++ msg, bank)
          | .error e => .error e

/-- Result of `process_bank_command` (lines 431-454) as observed by the caller,
together with whether `bank.save_data()` was invoked. -/
inductive ProcResult
  | response (resp : String) (b : Bank) (saved : Bool)
  | uncaught (e : PyErr)
deriving DecidableEq, Repr

/-- `process_bank_command` (lines 431-454): the dispatched unit of work runs in
a single-slot executor and `future.result` is raced against the deadline,
modelled by the oracle `timedOut`. Within the deadline, a normal return of
`handle_bank_command` is followed by `bank.save_data()` (saved = true) whatever
the response text was — including proxy error responses; an exception raised by
the handler is re-raised by `future.result`, skipping the save; on timeout the
caller gets the synthetic timeout response and no save happens. (Best-effort
cancellation — the abandoned unit possibly mutating the ledger later — is
real-time behavior outside this embedding.) -/
def process_bank_command (command : String) (bank : Bank) (p : ProxyFn)
    (timedOut : Bool) : ProcResult :=
  if timedOut then .response "ER TIMEOUT PROCESSING COMMAND" bank false
  else
    match handle_bank_command command bank p with
    | .ok (resp, b2) => .response resp b2 true
    | .error e => .uncaught e

/-- Whether a `process_bank_command` outcome performed the persistence save. -/
def ProcResult.didSave : ProcResult → Bool
  | .response _ _ s => s
  | .uncaught _ => false

-- Ledger operation sequences (for reachable-state invariants).

/-- One ledger-level operation, as the dispatcher invokes them. -/
inductive LedgerOp
  | createOp
  | depositOp (account_number amount : Int)
  | withdrawOp (account_number amount : Int)
  | removeOp (account_number : Int)
deriving DecidableEq, Repr

/-- Apply one operation; a raised exception leaves the ledger unchanged. -/
def applyOp (b : Bank) : LedgerOp → Bank
  | .createOp =>
      match b.create_account with
      | .ok (_, b2) => b2
      | .error _ => b
  | .depositOp n a =>
      match b.deposit n a with
      | .ok b2 => b2
      | .error _ => b
  | .withdrawOp n a =>
      match b.withdraw n a with
      | .ok b2 => b2
      | .error _ => b
  | .removeOp n =>
      match b.remove_account n with
      | .ok b2 => b2
      | .error _ => b

/-- Run a sequence of operations from a given state. -/
def runOps (b : Bank) (ops : List LedgerOp) : Bank :=
  ops.foldl applyOp b

/-- Amount arguments that passed the dispatcher's `validate_number` check
(`0 <= amount <= 2^63 - 1`); create/remove carry no amount. -/
def LedgerOp.amountValidated : LedgerOp → Bool
  | .createOp => true
  | .depositOp _ a => validate_number a
  | .withdrawOp _ a => validate_number a
  | .removeOp _ => true

/-- All balances in the ledger are non-negative. -/
def Bank.balancesNonneg (b : Bank) : Prop :=
  ∀ q ∈ b.accounts, 0 ≤ q.2

/-- All balances lie within the spec's claimed `[0, 2^63 - 1]` window. -/
def Bank.balancesInWindow (b : Bank) : Prop :=
  ∀ q ∈ b.accounts, 0 ≤ q.2 ∧ q.2 ≤ 9223372036854775807

-- Claim theorems.

/-- C1: for every ledger state (with `free_accounts` ascending, the data-model
invariant), `create_account` pops and returns the smallest element of
`free_accounts` when it is non-empty; otherwise it fails with the
allocation-exhausted error when `next_account_number > 99999`, and otherwise
returns `next_account_number` and increments it; in every success case the
returned account is present afterwards with balance 0. -/
theorem C1_create_account (b : Bank)
    (hs : List.Sorted (· ≤ ·) b.free_accounts) :
    (∀ n rest, b.free_accounts = n :: rest →
        (∀ m ∈ b.free_accounts, n ≤ m) ∧
        b.create_account =
          .ok (n, { b with free_accounts := rest
                           accounts := dictSet b.accounts n 0 })) ∧
    (b.free_accounts = [] → 99999 < b.next_account_number →
        b.create_account = .error "OUR BANK DOES NOT ALLOW NEW ACCOUNT CREATION.") ∧
    (b.free_accounts = [] → ¬ 99999 < b.next_account_number →
        b.create_account =
          .ok (b.next_account_number,
            { b with next_account_number := b.next_account_number + 1
                     accounts := dictSet b.accounts b.next_account_number 0 })) ∧
    (∀ n b2, b.create_account = .ok (n, b2) →
        dictGet? b2.accounts n = some 0) := by
  refine ⟨?_, ?_, ?_, ?_⟩
  · intro n rest hfree
    constructor
    · intro m hm
      rw [hfree] at hm
      rcases List.mem_cons.mp hm with hm | hm
      · exact le_of_eq hm.symm
      · exact List.rel_of_sorted_cons (hfree ▸ hs) m hm
    · unfold Bank.create_account
      rw [hfree]
  · intro hfree hbig
    unfold Bank.create_account
    rw [hfree]
    simp [hbig]
  · intro hfree hsmall
    unfold Bank.create_account
    rw [hfree]
    simp [hsmall]
  · intro n b2 hok
    unfold Bank.create_account at hok
    cases hfree : b.free_accounts with
    | cons m rest =>
        rw [hfree] at hok
        simp only [Except.ok.injEq, Prod.mk.injEq] at hok
        obtain ⟨hn, hb2⟩ := hok
        subst hn
        rw [← hb2]
        exact dictGet?_dictSet_self b.accounts _ 0
    | nil =>
        rw [hfree] at hok
        by_cases hbig : 99999 < b.next_account_number
        · simp [hbig] at hok
        · simp only [gt_iff_lt, if_neg hbig, Except.ok.injEq, Prod.mk.injEq] at hok
          obtain ⟨hn, hb2⟩ := hok
          subst hn
          rw [← hb2]
          exact dictGet?_dictSet_self b.accounts _ 0

/-- C1 witness: smallest free number 10005 is recycled and created with
balance 0. -/
theorem C1_create_account_witness :
    (Bank.mk "B" [] 10000 [10005, 10007]).create_account =
      Except.ok (10005, Bank.mk "B" [(10005, 0)] 10000 [10007]) ∧
    dictGet? (Bank.mk "B" [(10005, 0)] 10000 [10007]).accounts 10005 = some 0 := by
  have h := C1_create_account (Bank.mk "B" [] 10000 [10005, 10007]) (by decide)
  have h1 := (h.1 10005 [10007] rfl).2
  refine ⟨h1.trans rfl, ?_⟩
  exact h.2.2.2 10005 _ h1

/-- C2: `withdraw` fails with the unknown-account error when the account is
absent; fails with `INSUFFICIENT FUNDS` when its balance is below the amount
(the source raises before mutating anything, so the model's error outcome
carries no state change); otherwise it decreases the balance by exactly the
amount and touches nothing else. -/
theorem C2_withdraw (b : Bank) (n amt : Int) :
    (dictGet? b.accounts n = none →
        b.withdraw n amt =
          .error "ACCOUNT NUMBER AND AMOUNT ARE NOT IN THE CORRECT FORMAT.") ∧
    (∀ bal, dictGet? b.accounts n = some bal → bal < amt →
        b.withdraw n amt = .error "INSUFFICIENT FUNDS") ∧
    (∀ bal, dictGet? b.accounts n = some bal → ¬ bal < amt →
        b.withdraw n amt =
          .ok { b with accounts := dictSet b.accounts n (bal - amt) } ∧
        dictGet? (dictSet b.accounts n (bal - amt)) n = some (bal - amt) ∧
        (∀ m, m ≠ n →
          dictGet? (dictSet b.accounts n (bal - amt)) m = dictGet? b.accounts m)) := by
  refine ⟨?_, ?_, ?_⟩
  · intro hnone
    unfold Bank.withdraw
    rw [hnone]
  · intro bal hsome hlt
    unfold Bank.withdraw
    rw [hsome]
    simp [hlt]
  · intro bal hsome hge
    refine ⟨?_, dictGet?_dictSet_self _ _ _, fun m hm => dictGet?_dictSet_ne _ _ _ _ hm⟩
    unfold Bank.withdraw
    rw [hsome]
    simp [hge]

/-- C2 witness: withdrawing 7 from balance 5 fails leaving the ledger alone;
withdrawing 3 succeeds and leaves exactly 2. -/
theorem C2_withdraw_witness :
    (Bank.mk "B" [(10000, 5)] 10001 []).withdraw 10000 7 =
      .error "INSUFFICIENT FUNDS" ∧
    (Bank.mk "B" [(10000, 5)] 10001 []).withdraw 10000 3 =
      Except.ok (Bank.mk "B" [(10000, 2)] 10001 []) ∧
    (Bank.mk "B" [(10000, 99)] 10001 []).withdraw 77777 1 =
      .error "ACCOUNT NUMBER AND AMOUNT ARE NOT IN THE CORRECT FORMAT." := by
  refine ⟨?_, ?_, ?_⟩
  · exact (C2_withdraw (Bank.mk "B" [(10000, 5)] 10001 []) 10000 7).2.1 5
      (by decide) (by decide)
  · exact (((C2_withdraw (Bank.mk "B" [(10000, 5)] 10001 []) 10000 3).2.2 5
      (by decide) (by decide)).1).trans rfl
  · exact (C2_withdraw (Bank.mk "B" [(10000, 99)] 10001 []) 77777 1).1 (by decide)

/-- C9: `remove_account` fails with the unknown-account error when the account
is absent and with the non-zero-balance error when its balance is non-zero
(the source raises before mutating, so the entry and its balance survive);
otherwise it deletes the entry and puts the number into `free_accounts`,
which stays sorted ascending and gains exactly that number. -/
theorem C9_remove_account (b : Bank) (n : Int) :
    (dictGet? b.accounts n = none →
        b.remove_account n = .error "THE ACCOUNT NUMBER FORMAT IS NOT CORRECT.") ∧
    (∀ bal, dictGet? b.accounts n = some bal → bal ≠ 0 →
        b.remove_account n = .error "CANNOT DELETE AN ACCOUNT THAT HAS FUNDS.") ∧
    (dictGet? b.accounts n = some 0 →
        b.remove_account n =
          .ok { b with accounts := dictDel b.accounts n
                       free_accounts := pySort (b.free_accounts ++ [n]) } ∧
        ((b.accounts.map Prod.fst).Nodup →
          dictGet? (dictDel b.accounts n) n = none) ∧
        (∀ m, m ≠ n → dictGet? (dictDel b.accounts n) m = dictGet? b.accounts m) ∧
        List.Sorted (· ≤ ·) (pySort (b.free_accounts ++ [n])) ∧
        (pySort (b.free_accounts ++ [n])).Perm (n :: b.free_accounts)) := by
  refine ⟨?_, ?_, ?_⟩
  · intro hnone
    unfold Bank.remove_account
    rw [hnone]
  · intro bal hsome hbal
    unfold Bank.remove_account
    rw [hsome]
    simp [hbal]
  · intro hsome
    refine ⟨?_, fun hnd => dictGet?_dictDel_self _ _ hnd,
      fun m hm => dictGet?_dictDel_ne _ _ _ hm,
      List.sorted_insertionSort _ _, ?_⟩
    · unfold Bank.remove_account
      rw [hsome]
      simp
    · exact (List.perm_insertionSort _ _).trans (List.perm_append_singleton n b.free_accounts)

/-- C9 witness: removing empty account 10005 recycles it in sorted position;
removing a funded or unknown account fails. -/
theorem C9_remove_account_witness :
    (Bank.mk "B" [(10004, 3), (10005, 0)] 10006 [10001]).remove_account 10005 =
      Except.ok (Bank.mk "B" [(10004, 3)] 10006 [10001, 10005]) ∧
    (Bank.mk "B" [(10004, 3), (10005, 0)] 10006 [10001]).remove_account 10004 =
      .error "CANNOT DELETE AN ACCOUNT THAT HAS FUNDS." ∧
    (Bank.mk "B" [(10004, 3), (10005, 0)] 10006 [10001]).remove_account 12345 =
      .error "THE ACCOUNT NUMBER FORMAT IS NOT CORRECT." := by
  refine ⟨?_, ?_, ?_⟩
  · exact (((C9_remove_account (Bank.mk "B" [(10004, 3), (10005, 0)] 10006 [10001])
      10005).2.2 (by decide)).1).trans rfl
  · exact (C9_remove_account (Bank.mk "B" [(10004, 3), (10005, 0)] 10006 [10001])
      10004).2.1 3 (by decide) (by decide)
  · exact (C9_remove_account (Bank.mk "B" [(10004, 3), (10005, 0)] 10006 [10001])
      12345).1 (by decide)

/-- C10: a successful deposit of a non-negative amount into an existing account
raises `get_total_amount` by exactly that amount and leaves the client count,
`next_account_number`, `free_accounts`, the bank code and every other account's
balance unchanged. -/
theorem C10_deposit_frame (b : Bank) (n amt bal : Int)
    (h : dictGet? b.accounts n = some bal) (hamt : 0 ≤ amt) :
    ∃ b2, b.deposit n amt = .ok b2 ∧
      b2.get_total_amount = b.get_total_amount + amt ∧
      b2.get_client_count = b.get_client_count ∧
      b2.next_account_number = b.next_account_number ∧
      b2.free_accounts = b.free_accounts ∧
      b2.bank_code = b.bank_code ∧
      dictGet? b2.accounts n = some (bal + amt) ∧
      (∀ m, m ≠ n → dictGet? b2.accounts m = dictGet? b.accounts m) := by
  refine ⟨{ b with accounts := dictSet b.accounts n (bal + amt) }, ?_, ?_, ?_,
    rfl, rfl, rfl, dictGet?_dictSet_self _ _ _, fun m hm => dictGet?_dictSet_ne _ _ _ _ hm⟩
  · unfold Bank.deposit
    rw [h]
  · show ((dictSet b.accounts n (bal + amt)).map Prod.snd).sum =
      (b.accounts.map Prod.snd).sum + amt
    rw [sum_dictSet b.accounts n (bal + amt) bal h]
    ring
  · show (dictSet b.accounts n (bal + amt)).length = b.accounts.length
    exact length_dictSet_of_mem b.accounts n (bal + amt) bal h

/-- C10 witness: depositing 7 into account 10000 with balance 5 yields total
12 and count 1. -/
theorem C10_deposit_frame_witness :
    (Bank.mk "B" [(10000, 5)] 10001 []).deposit 10000 7 =
      Except.ok (Bank.mk "B" [(10000, 12)] 10001 []) ∧
    (Bank.mk "B" [(10000, 12)] 10001 []).get_total_amount =
      (Bank.mk "B" [(10000, 5)] 10001 []).get_total_amount + 7 := by
  obtain ⟨b2, hok, htot, -, -, -, -, hget, -⟩ :=
    C10_deposit_frame (Bank.mk "B" [(10000, 5)] 10001 []) 10000 7 5
      (by decide) (by decide)
  have hb2 : b2 = Bank.mk "B" [(10000, 12)] 10001 [] := by
    have : Except.ok (ε := String) b2 = Except.ok (Bank.mk "B" [(10000, 12)] 10001 []) :=
      hok.symm.trans rfl
    exact Except.ok.inj this
  refine ⟨hok.trans (by rw [hb2]), ?_⟩
  rw [← hb2]
  exact htot

-- Success-shape helper lemmas for the ledger operations.

theorem create_account_ok_accounts (b : Bank) (n : Int) (b2 : Bank)
    (h : b.create_account = .ok (n, b2)) :
    b2.accounts = dictSet b.accounts n 0 := by
  unfold Bank.create_account at h
  cases hf : b.free_accounts with
  | cons m rest =>
      rw [hf] at h
      simp only [Except.ok.injEq, Prod.mk.injEq] at h
      obtain ⟨hn, hb2⟩ := h
      subst hn
      rw [← hb2]
  | nil =>
      rw [hf] at h
      by_cases hbig : 99999 < b.next_account_number
      · simp [hbig] at h
      · simp only [gt_iff_lt, if_neg hbig, Except.ok.injEq, Prod.mk.injEq] at h
        obtain ⟨hn, hb2⟩ := h
        subst hn
        rw [← hb2]

theorem deposit_ok_shape (b : Bank) (n a : Int) (b2 : Bank)
    (h : b.deposit n a = .ok b2) :
    ∃ bal, dictGet? b.accounts n = some bal ∧
      b2.accounts = dictSet b.accounts n (bal + a) := by
  unfold Bank.deposit at h
  cases hg : dictGet? b.accounts n with
  | none => rw [hg] at h; simp at h
  | some bal =>
      rw [hg] at h
      simp only [Except.ok.injEq] at h
      exact ⟨bal, rfl, by rw [← h]⟩

theorem withdraw_ok_shape (b : Bank) (n a : Int) (b2 : Bank)
    (h : b.withdraw n a = .ok b2) :
    ∃ bal, dictGet? b.accounts n = some bal ∧ ¬ bal < a ∧
      b2.accounts = dictSet b.accounts n (bal - a) := by
  unfold Bank.withdraw at h
  cases hg : dictGet? b.accounts n with
  | none => rw [hg] at h; simp at h
  | some bal =>
      rw [hg] at h
      by_cases hlt : bal < a
      · simp [hlt] at h
      · simp only [if_neg hlt, Except.ok.injEq] at h
        exact ⟨bal, rfl, hlt, by rw [← h]⟩

theorem remove_account_ok_shape (b : Bank) (n : Int) (b2 : Bank)
    (h : b.remove_account n = .ok b2) :
    b2.accounts = dictDel b.accounts n := by
  unfold Bank.remove_account at h
  cases hg : dictGet? b.accounts n with
  | none => rw [hg] at h; simp at h
  | some bal =>
      rw [hg] at h
      by_cases hz : bal ≠ 0
      · simp [hz] at h
      · simp only [if_neg hz, Except.ok.injEq] at h
        rw [← h]

theorem applyOp_balancesNonneg (b : Bank) (op : LedgerOp)
    (hb : b.balancesNonneg) (hop : op.amountValidated = true) :
    (applyOp b op).balancesNonneg := by
  cases op with
  | createOp =>
      cases hc : b.create_account with
      | error e => simpa [applyOp, hc] using hb
      | ok pr =>
          obtain ⟨n, b2⟩ := pr
          have hacc := create_account_ok_accounts b n b2 hc
          simp only [applyOp, hc]
          intro q hq
          rw [hacc] at hq
          rcases mem_dictSet _ _ _ _ hq with h | h
          · exact hb q h
          · rw [h]
  | depositOp n a =>
      have ha : 0 ≤ a ∧ a ≤ 9223372036854775807 := by
        simp only [LedgerOp.amountValidated, validate_number,
          decide_eq_true_eq] at hop
        exact hop
      cases hc : b.deposit n a with
      | error e => simpa [applyOp, hc] using hb
      | ok b2 =>
          obtain ⟨bal, hg, hacc⟩ := deposit_ok_shape b n a b2 hc
          have hbal : 0 ≤ bal := hb (n, bal) (dictGet?_mem _ _ _ hg)
          simp only [applyOp, hc]
          intro q hq
          rw [hacc] at hq
          rcases mem_dictSet _ _ _ _ hq with h | h
          · exact hb q h
          · rw [h]
            show 0 ≤ bal + a
            omega
  | withdrawOp n a =>
      cases hc : b.withdraw n a with
      | error e => simpa [applyOp, hc] using hb
      | ok b2 =>
          obtain ⟨bal, hg, hge, hacc⟩ := withdraw_ok_shape b n a b2 hc
          simp only [applyOp, hc]
          intro q hq
          rw [hacc] at hq
          rcases mem_dictSet _ _ _ _ hq with h | h
          · exact hb q h
          · rw [h]
            show 0 ≤ bal - a
            omega
  | removeOp n =>
      cases hc : b.remove_account n with
      | error e => simpa [applyOp, hc] using hb
      | ok b2 =>
          have hacc := remove_account_ok_shape b n b2 hc
          simp only [applyOp, hc]
          intro q hq
          rw [hacc] at hq
          exact hb q (mem_dictDel _ _ _ hq)

theorem runOps_balancesNonneg (b : Bank) (ops : List LedgerOp)
    (hb : b.balancesNonneg)
    (hops : ∀ op ∈ ops, op.amountValidated = true) :
    (runOps b ops).balancesNonneg := by
  induction ops generalizing b with
  | nil => exact hb
  | cons op ops ih =>
      exact ih (applyOp b op)
        (applyOp_balancesNonneg b op hb (hops op (by simp)))
        (fun o ho => hops o (List.mem_cons_of_mem _ ho))

/-- C6 counterexample: two consecutive deposits of `2^63 - 1` — each passing
the dispatcher's `validate_number` range check — drive the balance of the
freshly created account 10000 to `2^64 - 2`, outside the claimed
`[0, 2^63 - 1]` window, on a state reachable from the initial ledger. -/
theorem C6_balance_window_counterexample :
    (LedgerOp.depositOp 10000 9223372036854775807).amountValidated = true ∧
    dictGet? (runOps (Bank.init "B")
        [.createOp, .depositOp 10000 9223372036854775807,
         .depositOp 10000 9223372036854775807]).accounts 10000 =
      some 18446744073709551614 ∧
    ¬ (runOps (Bank.init "B")
        [.createOp, .depositOp 10000 9223372036854775807,
         .depositOp 10000 9223372036854775807]).balancesInWindow := by
  refine ⟨rfl, rfl, ?_⟩
  intro hwin
  have h := hwin (10000, 18446744073709551614) (by decide)
  exact absurd h.2 (by decide)

/-- C6 amended: balances never go negative — `withdraw` guards
`balance < amount` and dispatcher-validated amounts are non-negative — but no
upper bound is maintained: only each individual amount is range-checked, so
balances can exceed `2^63 - 1` (see the counterexample). -/
theorem C6_balances_nonneg (code : String) (ops : List LedgerOp)
    (hops : ∀ op ∈ ops, op.amountValidated = true) :
    (runOps (Bank.init code) ops).balancesNonneg :=
  runOps_balancesNonneg (Bank.init code) ops (fun q hq => by simp [Bank.init] at hq) hops

/-- C6 witness: a create/deposit/withdraw run from the initial ledger keeps
the (here concretely computed) balances non-negative. -/
theorem C6_balances_nonneg_witness :
    (runOps (Bank.init "B")
        [.createOp, .depositOp 10000 5, .withdrawOp 10000 3]).balancesNonneg ∧
    dictGet? (runOps (Bank.init "B")
        [.createOp, .depositOp 10000 5, .withdrawOp 10000 3]).accounts 10000 =
      some 2 :=
  ⟨C6_balances_nonneg "B" [.createOp, .depositOp 10000 5, .withdrawOp 10000 3]
      (by decide), rfl⟩

-- Snapshot round trip.

theorem parseAccounts_map (l : List (Int × Int)) :
    parseAccounts (l.map (fun p => (pyStr p.1, JVal.jint p.2))) = some l := by
  induction l with
  | nil => rfl
  | cons p l ih =>
      obtain ⟨k, v⟩ := p
      simp [parseAccounts, pyInt_pyStr, ih]

theorem mapPyInt_map_jint (l : List Int) :
    mapPyInt (l.map JVal.jint) = some l := by
  induction l with
  | nil => rfl
  | cons n l ih => simp [mapPyInt, pyIntOfJVal, ih]

/-- C8: loading the snapshot a ledger saved reproduces that ledger exactly —
same balances (in the same order), same `next_account_number`, same
`free_accounts` sequence — given the data-model invariant that
`free_accounts` is ascending (so the `sorted(...)` on load is the identity). -/
theorem C8_snapshot_roundtrip (b : Bank)
    (hs : List.Sorted (· ≤ ·) b.free_accounts) :
    b.load_data (.parsed b.save_data) = b := by
  simp [Bank.load_data, Bank.save_data, jGet, parseAccounts_map,
    mapPyInt_map_jint, pySort, List.Sorted.insertionSort_eq hs]

/-- C8 witness: a concrete two-account ledger with a recycled number survives
the save/load round trip unchanged. -/
theorem C8_snapshot_roundtrip_witness :
    (Bank.mk "1.2.3.4" [(10000, 7), (10002, 0)] 10003 [10001]).load_data
        (.parsed (Bank.mk "1.2.3.4" [(10000, 7), (10002, 0)] 10003 [10001]).save_data) =
      Bank.mk "1.2.3.4" [(10000, 7), (10002, 0)] 10003 [10001] :=
  C8_snapshot_roundtrip (Bank.mk "1.2.3.4" [(10000, 7), (10002, 0)] 10003 [10001])
    (by decide)

-- Snapshot loading on malformed input.

/-- A malformed snapshot: the accounts table parses, but `free_accounts`
holds the non-numeric string `"x"`, so `int("x")` raises halfway through
`load_data`'s assignments. -/
def badSnapshot : JVal :=
  .jobj [("accounts", .jobj [("10000", .jint 5)]),
         ("free_accounts", .jarr [.jstr "x"]),
         ("next_account_number", .jint 12345)]

/-- C4: `load_data` does NOT always leave a freshly initialized ledger at its
default state on a malformed snapshot. Missing and unparsable files do keep
the defaults, but a snapshot that fails only while `free_accounts` is being
converted is applied partially: `accounts` has already been overwritten
(here to `{10000: 5}`), while `free_accounts` and `next_account_number` keep
their defaults — contradicting the source's own comment
"If loading fails, keep default values." -/
theorem C4_load_partial_application :
    (Bank.init "B").load_data .missing = Bank.init "B" ∧
    (Bank.init "B").load_data .unparsable = Bank.init "B" ∧
    (Bank.init "B").load_data (.parsed (.jstr "junk")) = Bank.init "B" ∧
    (Bank.init "B").load_data (.parsed badSnapshot) =
      Bank.mk "B" [(10000, 5)] 10000 [] ∧
    Bank.mk "B" [(10000, 5)] 10000 [] ≠ Bank.init "B" :=
  ⟨rfl, rfl, rfl, rfl, by decide⟩

-- Dispatcher failure propagation.

/-- C3: a command whose account token carries two separators does NOT get a
textual error response: the tuple unpacking of `split("/")` raises
`ValueError`, which is not a `CommandError`, so `handle_bank_command`'s
handler does not catch it and `future.result` inside `process_bank_command`
re-raises it (no other handler exists before the per-connection loop, which
closes the connection). This holds for every proxy behavior `p`. -/
theorem C3_multi_separator_escapes (p : ProxyFn) :
    handle_bank_command "AB 10000/1.1.1.1/9" (Bank.init "1.1.1.1") p =
      .error (.valueError "too many values to unpack (expected 2)") ∧
    process_bank_command "AB 10000/1.1.1.1/9" (Bank.init "1.1.1.1") p false =
      .uncaught (.valueError "too many values to unpack (expected 2)") :=
  ⟨rfl, rfl⟩

-- Persistence trigger policy.

/-- A proxy stub standing for an unreachable remote node: `proxy_command`
swallows the connection failure and returns its synthetic error response. -/
def failingProxy : ProxyFn := fun _ _ => "ER PROXY ERROR: timed out"

/-- C5 counterexample: a proxied command that comes back with a proxy error
response still triggers `bank.save_data()` — `process_bank_command` saves
after every `future.result` that returns within the deadline, with no check
of whether the command was proxied or failed. -/
theorem C5_save_after_failed_proxy :
    process_bank_command "AD 10000/9.9.9.9 5" (Bank.init "1.1.1.1") failingProxy false =
      .response "ER PROXY ERROR: timed out" (Bank.init "1.1.1.1") true ∧
    (process_bank_command "AD 10000/9.9.9.9 5" (Bank.init "1.1.1.1") failingProxy
        false).didSave = true :=
  ⟨rfl, rfl⟩

/-- C5 amended: `save_data` is invoked exactly when the dispatched command
completes within the deadline — local or proxied, success or error response
alike; it is not invoked on timeout, nor when the handler raises an uncaught
exception (the re-raise of `future.result` skips the save). -/
theorem C5_save_iff_completed (command : String) (b : Bank) (p : ProxyFn) :
    ((process_bank_command command b p false).didSave = true ↔
      (handle_bank_command command b p).isOk = true) ∧
    (process_bank_command command b p true).didSave = false := by
  constructor
  · unfold process_bank_command
    cases h : handle_bank_command command b p with
    | ok r =>
        obtain ⟨resp, b2⟩ := r
        simp [ProcResult.didSave, Except.isOk, Except.toBool]
    | error e =>
        simp [ProcResult.didSave, Except.isOk, Except.toBool]
  · rfl

-- Split lemmas for the `<number>/<bank_code>` account token.

theorem splitCharsBy_no_sep (p : Char → Bool) (xs : List Char)
    (hxs : ∀ c ∈ xs, p c = false) : splitCharsBy p xs = [xs] := by
  induction xs with
  | nil => rfl
  | cons c cs ih =>
      have hc : p c = false := hxs c (by simp)
      have ih' := ih (fun x hx => hxs x (by simp [hx]))
      simp [splitCharsBy, ih', hc]

theorem splitCharsBy_sep_append (p : Char → Bool) (xs ys : List Char) (sep : Char)
    (hsep : p sep = true) (hxs : ∀ c ∈ xs, p c = false)
    (hys : ∀ c ∈ ys, p c = false) :
    splitCharsBy p (xs ++ sep :: ys) = [xs, ys] := by
  induction xs with
  | nil =>
      have h := splitCharsBy_no_sep p ys hys
      simp [splitCharsBy, h, hsep]
  | cons c cs ih =>
      have hc : p c = false := hxs c (by simp)
      have ih' := ih (fun x hx => hxs x (by simp [hx]))
      simp [splitCharsBy, ih', hc]

theorem token_data (num bk : String) :
    (num ++ "/" ++ bk).data = num.data ++ '/' :: bk.data := by
  rw [String.data_append, String.data_append, List.append_assoc]
  rfl

theorem containsSlash_token (num bk : String) :
    containsSlash (num ++ "/" ++ bk) = true := by
  rw [containsSlash, token_data]
  simp

theorem pySplitSlash_token (num bk : String)
    (hn : containsSlash num = false) (hb : containsSlash bk = false) :
    pySplitSlash (num ++ "/" ++ bk) = [num, bk] := by
  simp only [containsSlash, List.any_eq_false, decide_eq_false_iff_not] at hn hb
  have hn' : ∀ c ∈ num.data, (fun x => decide (x = '/')) c = false :=
    fun c hc => Bool.eq_false_iff.mpr (hn c hc)
  have hb' : ∀ c ∈ bk.data, (fun x => decide (x = '/')) c = false :=
    fun c hc => Bool.eq_false_iff.mpr (hb c hc)
  rw [pySplitSlash, token_data,
    splitCharsBy_sep_append _ _ _ '/' (by simp) hn' hb']
  rfl

/-- C7: an account-bearing command is forwarded to the remote node exactly
when its bank code differs from the local one and the command is AD, AW or AB:
with a mismatched bank code those three return the proxy's response verbatim
(for any proxy behavior `p`, with the ledger untouched) even though the number
and amount tokens (`num_str`, `amt`) are arbitrary — forwarding is decided
before any local validation — while AR with a mismatched bank code answers the
format error; with a matching bank code, and for AR always, the result does
not depend on the proxy at all (nothing is forwarded). -/
theorem C7_proxy_routing (bank : Bank) (p p1 p2 : ProxyFn) (num_str bk amt : String)
    (hn : containsSlash num_str = false) (hb : containsSlash bk = false) :
    (bk ≠ bank.bank_code →
      ADCommand.execute ["AD", num_str ++ "/" ++ bk, amt] bank p =
        .ok (p bk (pyJoin ["AD", num_str ++ "/" ++ bk, amt]), bank) ∧
      AWCommand.execute ["AW", num_str ++ "/" ++ bk, amt] bank p =
        .ok (p bk (pyJoin ["AW", num_str ++ "/" ++ bk, amt]), bank) ∧
      ABCommand.execute ["AB", num_str ++ "/" ++ bk] bank p =
        .ok (p bk (pyJoin ["AB", num_str ++ "/" ++ bk]), bank) ∧
      ARCommand.execute ["AR", num_str ++ "/" ++ bk] bank p =
        .error (.commandError "THE ACCOUNT NUMBER FORMAT IS NOT CORRECT.")) ∧
    (bk = bank.bank_code →
      ADCommand.execute ["AD", num_str ++ "/" ++ bk, amt] bank p1 =
        ADCommand.execute ["AD", num_str ++ "/" ++ bk, amt] bank p2 ∧
      AWCommand.execute ["AW", num_str ++ "/" ++ bk, amt] bank p1 =
        AWCommand.execute ["AW", num_str ++ "/" ++ bk, amt] bank p2 ∧
      ABCommand.execute ["AB", num_str ++ "/" ++ bk] bank p1 =
        ABCommand.execute ["AB", num_str ++ "/" ++ bk] bank p2) ∧
    ARCommand.execute ["AR", num_str ++ "/" ++ bk] bank p1 =
      ARCommand.execute ["AR", num_str ++ "/" ++ bk] bank p2 := by
  have hsplit := pySplitSlash_token num_str bk hn hb
  have hcontains := containsSlash_token num_str bk
  refine ⟨?_, ?_, ?_⟩
  · intro hmm
    refine ⟨?_, ?_, ?_, ?_⟩
    · simp [ADCommand.execute, hcontains, hsplit, hmm]
    · simp [AWCommand.execute, hcontains, hsplit, hmm]
    · simp [ABCommand.execute, hcontains, hsplit, hmm]
    · simp [ARCommand.execute, hcontains, hsplit, hmm]
  · intro hmm
    subst hmm
    refine ⟨?_, ?_, ?_⟩
    · simp [ADCommand.execute, hcontains, hsplit]
    · simp [AWCommand.execute, hcontains, hsplit]
    · simp [ABCommand.execute, hcontains, hsplit]
  · simp only [ARCommand.execute]

/-- C7 witness: with local code 1.1.1.1 and token `abc/9.9.9.9`, AD forwards
verbatim to the proxy (even though `abc`/`xyz` are not valid numbers) and AR
answers the format error. -/
theorem C7_proxy_routing_witness :
    ADCommand.execute ["AD", "abc" ++ "/" ++ "9.9.9.9", "xyz"] (Bank.init "1.1.1.1")
        (fun r c => "R " ++ r ++ " " ++ c) =
      .ok ("R 9.9.9.9 AD abc/9.9.9.9 xyz", Bank.init "1.1.1.1") ∧
    ARCommand.execute ["AR", "abc" ++ "/" ++ "9.9.9.9"] (Bank.init "1.1.1.1")
        (fun r c => "R " ++ r ++ " " ++ c) =
      .error (.commandError "THE ACCOUNT NUMBER FORMAT IS NOT CORRECT.") := by
  have h := (C7_proxy_routing (Bank.init "1.1.1.1")
      (fun r c => "R " ++ r ++ " " ++ c) (fun r c => "R " ++ r ++ " " ++ c)
      (fun r c => "R " ++ r ++ " " ++ c) "abc" "9.9.9.9" "xyz"
      (by decide) (by decide)).1 (by decide)
  exact ⟨h.1.trans rfl, h.2.2.2⟩
